import Mathlib

/-!
Shallow embedding of the browser-laptop sync engine, from
`src/js/state/syncUtil.js` and `src/app/sync.js`.

JavaScript objects are modelled as association lists of string keys and
`JsVal` values; JS `undefined` is `JsVal.undefined`; `Uint8Array` buffers are
`JsVal.uint8`.  Effectful code (channel sends, thrown exceptions) is
modelled with explicit effect lists and `Except`.
-/

/-- A JavaScript value as it appears in the sync engine's data. -/
inductive JsVal where
  | undefined
  | bool (b : Bool)
  | num (n : Int)
  | str (s : String)
  | uint8 (bytes : List Nat)
  | arr (elems : List JsVal)
  | obj (fields : List (String × JsVal))
deriving Repr

/-- A JavaScript object: ordered fields with string keys. -/
abbrev JsObj := List (String × JsVal)

/-- JS truthiness for the values the engine tests with `!x` / `x || y`. -/
def jsTruthy : JsVal → Bool
  | .undefined => false
  | .bool b => b
  | .num n => n != 0
  | .str s => s != ""
  | .uint8 _ => true
  | .arr _ => true
  | .obj _ => true

/-- `o.hasOwnProperty(k)` / `field in o`. -/
def objHas : JsObj → String → Bool
  | [], _ => false
  | p :: rest, k => p.1 = k || objHas rest k

/-- `o[k]`, `none` when the key is absent. -/
def objGet : JsObj → String → Option JsVal
  | [], _ => none
  | p :: rest, k => if p.1 = k then some p.2 else objGet rest k

/-- JS property assignment `o[k] = v`: updates the first occurrence in
place, appends when absent. -/
def objSet : JsObj → String → JsVal → JsObj
  | [], k, v => [(k, v)]
  | p :: rest, k, v => if p.1 = k then (k, v) :: rest else p :: objSet rest k v

/-- `siteSettingDefaults` from syncUtil.js lines 9-21. -/
def siteSettingDefaults : JsObj :=
  [("hostPattern", .str ""),
   ("zoomLevel", .num 0),
   ("shieldsUp", .bool true),
   ("adControl", .num 1),
   ("cookieControl", .num 0),
   ("safeBrowsing", .bool true),
   ("noScript", .bool false),
   ("httpsEverywhere", .bool true),
   ("fingerprintingProtection", .bool false),
   ("ledgerPayments", .bool true),
   ("ledgerPaymentsShown", .bool true)]

/-- The keys of `siteSettingDefaults`, i.e. the fixed site-setting schema. -/
def schemaKeys : List String :=
  ["hostPattern", "zoomLevel", "shieldsUp", "adControl", "cookieControl",
   "safeBrowsing", "noScript", "httpsEverywhere", "fingerprintingProtection",
   "ledgerPayments", "ledgerPaymentsShown"]

/-- A site entry of the `sites` collection, with the fields the sync code
reads.  `none` models an absent (undefined) field. -/
structure Site where
  location : Option String := none
  title : Option String := none
  customTitle : Option String := none
  lastAccessedTime : Option Int := none
  creationTime : Option Int := none
  tags : Option (List String) := none
  folderId : Option Int := none
  parentFolderId : Option Int := none
  objectId : Option (List Nat) := none
deriving Repr

/-- The `siteData` payload fields (syncUtil.js lines 150-156). -/
structure SiteFields where
  location : String
  title : String
  customTitle : String
  lastAccessedTime : Int
  creationTime : Int
deriving Repr, DecidableEq

/-- The copy loop of `createSiteData` (lines 157-161): present site fields
over the `siteData` defaults. -/
def siteFieldsOf (s : Site) : SiteFields :=
  { location := s.location.getD ""
    title := s.title.getD ""
    customTitle := s.customTitle.getD ""
    lastAccessedTime := s.lastAccessedTime.getD 0
    creationTime := s.creationTime.getD 0 }

/-- `isSyncable('bookmark', item)` (syncUtil.js lines 115-118): the item
has a (possibly empty, hence truthy) tags list containing `bookmark` or
`bookmark-folder`. -/
def isSyncableBookmark (s : Site) : Bool :=
  match s.tags with
  | none => false
  | some tags => tags.contains "bookmark" || tags.contains "bookmark-folder"

/-- `isSyncable('siteSetting', item)` (syncUtil.js lines 119-125): some
field of `siteSettingDefaults` is present on the item. -/
def isSyncableSiteSetting (setting : JsObj) : Bool :=
  siteSettingDefaults.any (fun kv => objHas setting kv.1)

/-- `!site.tags || !site.tags.length` (syncUtil.js line 176). -/
def tagsEmpty (s : Site) : Bool :=
  match s.tags with
  | none => true
  | some tags => tags.isEmpty

/-- The `adControlEnum` table of `createSiteSettingsData`
(syncUtil.js lines 195-199). -/
def adControlEnum (s : String) : Option Int :=
  if s = "showBraveAds" then some 0
  else if s = "blockAds" then some 1
  else if s = "allowAdsAndTracking" then some 2
  else none

/-- The `cookieControlEnum` table (syncUtil.js lines 200-203). -/
def cookieControlEnum (s : String) : Option Int :=
  if s = "block3rdPartyCookie" then some 0
  else if s = "allowAllCookies" then some 1
  else none

/-- `adControlEnum[setting.adControl]`: JS index lookup, `undefined` for
any key outside the table (including non-string values). -/
def adControlLookup : JsVal → JsVal
  | .str s => match adControlEnum s with
    | some n => .num n
    | none => .undefined
  | _ => .undefined

/-- `cookieControlEnum[setting.cookieControl]`. -/
def cookieControlLookup : JsVal → JsVal
  | .str s => match cookieControlEnum s with
    | some n => .num n
    | none => .undefined
  | _ => .undefined

/-- Payload of a built record: the `value` field of the objects returned
by `createSiteData` / `createSiteSettingsData`, and the device payload. -/
inductive RecValue where
  | bookmark (site : SiteFields) (isFolder : Bool) (folderId : Int) (parentFolderId : Int)
  | historySite (site : SiteFields)
  | siteSetting (value : JsObj)
  | device (name : String)
deriving Repr

/-- A `{name, objectId, value}` object: input for `sendSyncRecords`. -/
structure RecordItem where
  name : String
  objectId : JsVal
  value : RecValue
deriving Repr

/-- Result of `createSiteData`: a thrown error, a built record (the flag
records whether `newObjectId` generated and persisted a fresh id), or the
implicit `undefined` return for non-syncable tagged sites. -/
inductive SiteDataResult where
  | err (msg : String)
  | built (item : RecordItem) (persistedNewId : Bool)
  | undefined
deriving Repr

/-- Render a 16-byte id as the JS number array `newObjectId` returns. -/
def idToJs (id : List Nat) : JsVal :=
  .arr (id.map (fun b => .num (Int.ofNat b)))

/-- `createSiteData(site, siteIndex)` (syncUtil.js lines 149-186).
`fresh` stands for the bytes `crypto.randomBytes(16)` would return if
`newObjectId` runs. -/
def createSiteData (s : Site) (siteIndex : Option Nat) (fresh : List Nat) : SiteDataResult :=
  let siteData := siteFieldsOf s
  if isSyncableBookmark s then
    let value := RecValue.bookmark siteData ((s.tags.getD []).contains "bookmark-folder")
      (s.folderId.getD 0) (s.parentFolderId.getD 0)
    match s.objectId, siteIndex with
    | some oid, _ => .built ⟨"bookmark", idToJs oid, value⟩ false
    | none, none => .err "Missing bookmark objectId."
    | none, some _ => .built ⟨"bookmark", idToJs fresh, value⟩ true
  else if tagsEmpty s then
    match s.objectId, siteIndex with
    | some oid, _ => .built ⟨"historySite", idToJs oid, .historySite siteData⟩ false
    | none, none => .err "Missing historySite objectId."
    | none, some _ => .built ⟨"historySite", idToJs fresh, .historySite siteData⟩ true
  else .undefined

/-- The `value` object built by `createSiteSettingsData`
(syncUtil.js lines 204-214): defaults overlaid with `hostPattern`, then
the copy loop over the setting's fields. -/
def applySettingField (value : JsObj) (field : String × JsVal) : JsObj :=
  if field.1 = "adControl" then objSet value "adControl" (adControlLookup field.2)
  else if field.1 = "cookieControl" then objSet value "cookieControl" (cookieControlLookup field.2)
  else if objHas value field.1 then objSet value field.1 field.2
  else value

/-- The whole `value` computation of `createSiteSettingsData`. -/
def settingValue (hostPattern : String) (setting : JsObj) : JsObj :=
  setting.foldl applySettingField (objSet siteSettingDefaults "hostPattern" (.str hostPattern))

/-- `createSiteSettingsData(hostPattern, setting)`
(syncUtil.js lines 194-221).  The flag records whether `newObjectId`
generated and persisted a fresh id. -/
def createSiteSettingsData (hostPattern : String) (setting : JsObj) (fresh : List Nat) :
    RecordItem × Bool :=
  let value := settingValue hostPattern setting
  let oid := (objGet setting "objectId").getD .undefined
  if jsTruthy oid then (⟨"siteSetting", oid, .siteSetting value⟩, false)
  else (⟨"siteSetting", idToJs fresh, .siteSetting value⟩, true)

/-- An Immutable.Map-like state entry for `setObjectId`; `notMap` models a
value without a `toJS` method. -/
inductive ImmItem where
  | map (objectId : Option (List Nat)) (rest : JsObj)
  | notMap
deriving Repr

/-- `setObjectId(item)` (syncUtil.js lines 91-100).  The boolean records
whether `crypto.randomBytes(16)` (modelled by `fresh`) was consumed. -/
def setObjectId (fresh : List Nat) : Option ImmItem → Option ImmItem × Bool
  | none => (none, false)
  | some .notMap => (none, false)
  | some (.map oid rest) =>
    if oid.isSome then (some (.map oid rest), false)
    else (some (.map (some fresh) rest), true)

mutual

/-- `deepArrayify` (syncUtil.js lines 228-240): a copy of the object with
every field put through `arrayifyField`. -/
def deepArrayify : List (String × JsVal) → List (String × JsVal)
  | [] => []
  | (k, v) :: rest => (k, arrayifyField v) :: deepArrayify rest

/-- The loop body of `deepArrayify` on one field: fields that are already
`Array` are skipped, `Uint8Array` fields become plain number arrays,
nested objects are recursed into, primitives are left alone. -/
def arrayifyField : JsVal → JsVal
  | .arr es => .arr es
  | .uint8 bs => .arr (bs.map (fun b => .num (Int.ofNat b)))
  | .obj fs => .obj (deepArrayify fs)
  | .undefined => .undefined
  | .bool b => .bool b
  | .num n => .num n
  | .str s => .str s

end

/-- `ipcSafeObject` (syncUtil.js lines 242-244). -/
def ipcSafeObject (object : JsObj) : JsObj :=
  deepArrayify object

/-- Modelled from the spec: the protocol write actions of
`js/constants/sync/proto` (not under src/); §3 gives
`action ∈ {CREATE, UPDATE, DELETE}`. -/
inductive WriteAction where
  | create
  | update
  | delete
deriving Repr, DecidableEq

/-- Modelled from the spec: `syncUtil.CATEGORY_MAP` is referenced from
app/sync.js but not present under src/.  §3 fixes the Category
enumeration as `bookmark`, `historySite`, `siteSetting`, `device` and
their server-side plural forms; the map takes a record payload name to
its server-side category name, unknown names to `undefined`. -/
def CATEGORY_MAP (name : String) : Option String :=
  if name = "bookmark" then some "BOOKMARKS"
  else if name = "historySite" then some "HISTORY_SITES"
  else if name = "siteSetting" then some "PREFERENCES"
  else if name = "device" then some "PREFERENCES"
  else none

/-- Modelled from the spec: `categoryNames = Object.keys(categories)`
where `categories` comes from `js/constants/sync/proto` (not under
src/); per §3 these are the server-side plural category names. -/
def categoryNames : List String :=
  ["BOOKMARKS", "HISTORY_SITES", "PREFERENCES"]

/-- A record as placed on the channel by `sendSyncRecords`'s map
(sync.js lines 43-53); `none` entries are items skipped by the guard. -/
structure SentRecord where
  action : WriteAction
  deviceId : List Nat
  objectId : JsVal
  name : String
  value : RecValue
deriving Repr

/-- One channel operation performed by the engine. -/
inductive SendEffect where
  | sendRecords (category : Option String) (records : List (Option SentRecord))
  | deleteCategory (category : Option String)
  | deleteSiteSettings
deriving Repr

/-- The map callback of `sendSyncRecords` (sync.js lines 43-53): items
that are missing, or have a falsy name or value, map to `undefined`. -/
def sentItem (action : WriteAction) (dId : List Nat) : Option RecordItem → Option SentRecord
  | none => none
  | some it => if it.name = "" then none else some ⟨action, dId, it.objectId, it.name, it.value⟩

/-- `sendSyncRecords(sender, action, data)` (sync.js lines 35-54).
Throws when `deviceId` is null; returns without sending on empty data;
throws a TypeError when the first data item is `undefined` (the
`data[0].name` access); otherwise performs one channel send. -/
def sendSyncRecords (deviceId : Option (List Nat)) (action : WriteAction)
    (data : List (Option RecordItem)) : Except String (Option SendEffect) :=
  match deviceId with
  | none => .error "Cannot build a sync record because deviceId is not set"
  | some dId =>
    match data with
    | [] => .ok none
    | none :: _ => .error "TypeError: Cannot read property name of undefined"
    | some first :: _ =>
      .ok (some (.sendRecords (CATEGORY_MAP first.name) (data.map (sentItem action dId))))

/-- The action types of the `doAction` switch (sync.js lines 65-103). -/
inductive ActionType where
  | addSite
  | updateSite
  | removeSite
  | clearHistory
  | addSiteSetting
  | updateSiteSetting
  | removeSiteSetting
  | clearSiteSettings
  | other
deriving Repr, DecidableEq

/-- The Immutable item carried by a sync action: a site for the site
actions, a site-settings map for the setting actions. -/
inductive SyncItem where
  | site (s : Site)
  | setting (s : JsObj)
deriving Repr

/-- A dispatched sync action `{actionType, item, hostPattern}`. -/
structure SyncAction where
  actionType : ActionType
  item : Option SyncItem
  hostPattern : String
deriving Repr

/-- `action.item.get('objectId')` truthiness (sync.js line 61). -/
def itemHasObjectId : SyncItem → Bool
  | .site s => s.objectId.isSome
  | .setting o => jsTruthy ((objGet o "objectId").getD .undefined)

/-- Lift a `createSiteData` result into the `[syncUtil.createSiteData(...)]`
argument expression: a thrown error propagates, otherwise the (possibly
`undefined`) record is passed along. -/
def siteDataToExcept : SiteDataResult → Except String (Option RecordItem)
  | .err m => .error m
  | .built r _ => .ok (some r)
  | .undefined => .ok none

/-- `doAction(sender, action)` (sync.js lines 56-104).  `fresh` stands for
the bytes a `newObjectId` call inside the builders would generate.  The
result is the list of channel operations, or the message of an escaped
exception. -/
def doAction (deviceId : Option (List Nat)) (a : SyncAction) (fresh : List Nat) :
    Except String (List SendEffect) :=
  match a.item with
  | none => .ok []
  | some item =>
    if !(itemHasObjectId item) then .ok []
    else
      match a.actionType, item with
      | .addSite, .site s => do
        let d ← siteDataToExcept (createSiteData s none fresh)
        let eff ← sendSyncRecords deviceId .create [d]
        .ok eff.toList
      | .updateSite, .site s => do
        let d ← siteDataToExcept (createSiteData s none fresh)
        let eff ← sendSyncRecords deviceId .update [d]
        .ok eff.toList
      | .removeSite, .site s => do
        let d ← siteDataToExcept (createSiteData s none fresh)
        let eff ← sendSyncRecords deviceId .delete [d]
        .ok eff.toList
      | .clearHistory, _ => .ok [.deleteCategory (CATEGORY_MAP "historySite")]
      | .addSiteSetting, .setting o =>
        if isSyncableSiteSetting o then do
          let eff ← sendSyncRecords deviceId .create
            [some (createSiteSettingsData a.hostPattern o fresh).1]
          .ok eff.toList
        else .ok []
      | .updateSiteSetting, .setting o =>
        if isSyncableSiteSetting o then do
          let eff ← sendSyncRecords deviceId .update
            [some (createSiteSettingsData a.hostPattern o fresh).1]
          .ok eff.toList
        else .ok []
      | .removeSiteSetting, .setting o => do
        let eff ← sendSyncRecords deviceId .delete
          [some (createSiteSettingsData a.hostPattern o fresh).1]
        .ok eff.toList
      | .clearSiteSettings, _ => .ok [.deleteSiteSettings]
      | _, _ => .ok []

/-- The `sites.forEach` backfill loop of `onSyncReady`
(sync.js lines 126-131), carrying the running index: sites that are
present, lack an `objectId` and are bookmark-syncable are sent as CREATE
records built with their index. -/
def backfillSites (deviceId : Option (List Nat)) (freshSite : Nat → List Nat) :
    Nat → List (Option Site) → Except String (List SendEffect)
  | _, [] => .ok []
  | i, osite :: rest => do
    let head ←
      match osite with
      | some s =>
        if s.objectId.isNone && isSyncableBookmark s then do
          let d ← siteDataToExcept (createSiteData s (some i) (freshSite i))
          let eff ← sendSyncRecords deviceId .create [d]
          pure eff.toList
        else pure ([] : List SendEffect)
      | none => pure []
    let tail ← backfillSites deviceId freshSite (i + 1) rest
    pure (head ++ tail)

/-- The site-settings backfill of `onSyncReady` (sync.js lines 133-142):
records for the syncable settings, each with its own fresh id supply. -/
def settingsRecords (freshSetting : Nat → List Nat) :
    Nat → List (String × JsObj) → List (Option RecordItem)
  | _, [] => []
  | i, (hostPattern, setting) :: rest =>
    some (createSiteSettingsData hostPattern setting (freshSetting i)).1 ::
      settingsRecords freshSetting (i + 1) rest

/-- `onSyncReady(isFirstRun, e)` (sync.js lines 111-171), restricted to
its channel sends: the first-run device record, the bookmark backfill,
and the site-settings UPDATE batch.  `freshDev`, `freshSite` and
`freshSetting` stand for the ids `newObjectId` would generate. -/
def onSyncReady (isFirstRun : Bool) (deviceId : Option (List Nat))
    (sites : List (Option Site)) (siteSettings : List (String × JsObj))
    (freshDev : List Nat) (freshSite : Nat → List Nat) (freshSetting : Nat → List Nat) :
    Except String (List SendEffect) := do
  let deviceEffs ←
    if isFirstRun then do
      let eff ← sendSyncRecords deviceId .create
        [some ⟨"device", idToJs freshDev, .device "browser-laptop"⟩]
      pure eff.toList
    else pure ([] : List SendEffect)
  let siteEffs ← backfillSites deviceId freshSite 0 sites
  let syncable := siteSettings.filter (fun kv => isSyncableSiteSetting kv.2)
  let settingsEff ← sendSyncRecords deviceId .update (settingsRecords freshSetting 0 syncable)
  pure (deviceEffs ++ siteEffs ++ settingsEff.toList)

/-- `now()` (syncUtil.js lines 105-107): `Math.floor(Date.now() / 1000)`. -/
def now (dateNowMs : Nat) : Nat :=
  dateNowMs / 1000

/-- One observable step of the poll routine: the FETCH_SYNC_RECORDS send
and the external persistence of the advanced watermark
(`appActions.saveSyncInitData`). -/
inductive PollEvent where
  | fetch (categories : List String) (sinceWatermark : Nat)
  | save (watermark : Nat)
deriving Repr, DecidableEq

/-- The mutable state of the poll routine: the `startAt` watermark and
the trace of channel/persistence events so far. -/
structure PollState where
  startAt : Nat
  events : List PollEvent
deriving Repr, DecidableEq

/-- One run of `poll` (sync.js lines 164-168) at wall-clock second
`tNow`: send the fetch with the current watermark, then advance the
watermark to now and persist it. -/
def pollOnce (tNow : Nat) (s : PollState) : PollState :=
  { startAt := tNow, events := s.events ++ [.fetch categoryNames s.startAt, .save tNow] }

/-- The poll schedule of `onSyncReady` (sync.js lines 162-170): `poll()`
fires immediately at ready time `t0` (milliseconds) and `setInterval`
re-fires it at `t0 + k * interval`; `pollTrace init t0 interval k` is the
state after the `k`-th firing, starting from the stored watermark
`init` (`sync.lastFetchTimestamp || 0`). -/
def pollTrace (init t0 interval : Nat) : Nat → PollState
  | 0 => pollOnce (now t0) ⟨init, []⟩
  | k + 1 => pollOnce (now (t0 + (k + 1) * interval)) (pollTrace init t0 interval k)

/-- Modelled from the spec: the inverse integer-to-string `adControl`
mapping used when applying resolved records (`applySyncRecord`, invoked
by the RESOLVED_SYNC_RECORDS handler at sync.js line 160, is not present
under src/).  §4.2 fixes the enum table as bidirectional, so this is the
inverse of the `adControlEnum` table. -/
def adControlFromInt (n : Int) : Option String :=
  if n = 0 then some "showBraveAds"
  else if n = 1 then some "blockAds"
  else if n = 2 then some "allowAdsAndTracking"
  else none

/-! ### Helper lemmas on the JS object model -/

lemma objHas_iff_mem_keys (o : JsObj) (k : String) :
    objHas o k = true ↔ k ∈ o.map Prod.fst := by
  induction o with
  | nil => simp [objHas]
  | cons p rest ih =>
    simp only [objHas, Bool.or_eq_true, decide_eq_true_eq, List.map_cons, List.mem_cons, ih]
    exact or_congr ⟨Eq.symm, Eq.symm⟩ Iff.rfl

lemma objGet_objSet_self (o : JsObj) (k : String) (v : JsVal) :
    objGet (objSet o k v) k = some v := by
  induction o with
  | nil => simp [objSet, objGet]
  | cons p rest ih =>
    by_cases hp : p.1 = k <;> simp [objSet, objGet, hp, ih]

lemma objGet_objSet_ne (o : JsObj) (k : String) (v : JsVal) (k' : String) (h : k' ≠ k) :
    objGet (objSet o k v) k' = objGet o k' := by
  induction o with
  | nil => simp [objSet, objGet, Ne.symm h]
  | cons p rest ih =>
    by_cases hp : p.1 = k
    · subst hp
      simp [objSet, objGet, Ne.symm h]
    · by_cases hp' : p.1 = k' <;> simp [objSet, objGet, hp, hp', h, ih]

lemma map_fst_objSet (o : JsObj) (k : String) (v : JsVal) (h : objHas o k = true) :
    (objSet o k v).map Prod.fst = o.map Prod.fst := by
  induction o with
  | nil => simp [objHas] at h
  | cons p rest ih =>
    by_cases hp : p.1 = k
    · simp [objSet, hp]
    · have h' : objHas rest k = true := by simpa [objHas, hp] using h
      simp [objSet, hp, ih h']

lemma objGet_eq_none_iff (o : JsObj) (k : String) :
    objGet o k = none ↔ ∀ p ∈ o, p.1 ≠ k := by
  induction o with
  | nil => simp [objGet]
  | cons p rest ih =>
    by_cases hp : p.1 = k <;> simp [objGet, hp, ih]

/-! ### C2: sending with no deviceId -/

/-- C2: for every action and every non-empty record list, `sendSyncRecords`
with no established deviceId throws (hard failure) before anything reaches
the channel, and conversely a channel send (an `ok`/`some` result) only
ever happens with an established deviceId. -/
theorem sendSyncRecords_requires_deviceId :
    (∀ (action : WriteAction) (data : List (Option RecordItem)), data ≠ [] →
      sendSyncRecords none action data =
        Except.error "Cannot build a sync record because deviceId is not set") ∧
    ∀ (deviceId : Option (List Nat)) (action : WriteAction)
      (data : List (Option RecordItem)) (eff : SendEffect),
      sendSyncRecords deviceId action data = Except.ok (some eff) → deviceId.isSome := by
  constructor
  · intro action data _
    rfl
  · intro deviceId action data eff h
    cases deviceId with
    | none => simp [sendSyncRecords] at h
    | some d => rfl

/-- Closed witness for `sendSyncRecords_requires_deviceId`. -/
theorem sendSyncRecords_requires_deviceId_witness :
    sendSyncRecords none WriteAction.create
      [some ⟨"device", idToJs [1], .device "d"⟩] =
      Except.error "Cannot build a sync record because deviceId is not set" :=
  sendSyncRecords_requires_deviceId.1 WriteAction.create _ (by simp)

/-! ### C9: non-syncable input on the dispatch path -/

/-- A site that is non-syncable for `createSiteData`: its non-empty tag
list contains neither `bookmark` nor `bookmark-folder`. -/
def c9site : Site :=
  { objectId := some [1, 2], tags := some ["pinned"], location := some "https://example.com" }

/-- C9 (code behaviour at the failing input): for a non-syncable site the
builder yields `undefined` and nothing is sent, but the dispatch path does
NOT drop it silently: `sendSyncRecords` throws a TypeError reading
`data[0].name` of the undefined record. -/
theorem doAction_nonSyncable_site_throws :
    doAction (some [1]) ⟨.addSite, some (.site c9site), ""⟩ [0] =
      Except.error "TypeError: Cannot read property name of undefined" := rfl

/-! ### C5: unknown enum string during record building -/

/-- A site setting whose `adControl` string is outside the translation
table, already carrying an objectId. -/
def c5setting : JsObj :=
  [("objectId", .arr [.num 1]), ("adControl", .str "bogus")]

/-- The `value` object the engine actually sends for `c5setting`: the
schema defaults with the corrupted (`undefined`) `adControl`. -/
def c5value : JsObj :=
  [("hostPattern", .str "example.com"),
   ("zoomLevel", .num 0),
   ("shieldsUp", .bool true),
   ("adControl", .undefined),
   ("cookieControl", .num 0),
   ("safeBrowsing", .bool true),
   ("noScript", .bool false),
   ("httpsEverywhere", .bool true),
   ("fingerprintingProtection", .bool false),
   ("ledgerPayments", .bool true),
   ("ledgerPaymentsShown", .bool true)]

/-- C5 (code behaviour at the failing input): an unknown `adControl`
string is not treated as a building error; the record is built with
`adControl = undefined` and `doAction` sends it on the channel. -/
theorem createSiteSettingsData_unknown_adControl_sent :
    doAction (some [1]) ⟨.addSiteSetting, some (.setting c5setting), "example.com"⟩ [0] =
      Except.ok [SendEffect.sendRecords (some "PREFERENCES")
        [some ⟨.create, [1], .arr [.num 1], "siteSetting", .siteSetting c5value⟩]] := rfl

/-! ### C6: adControl enum round-trip -/

/-- C6: `"blockAds"` maps to `1` under the forward table, the inverse
mapping takes `1` back to `"blockAds"`, and the inverse composed with the
forward mapping is the identity on all recognized adControl strings. -/
theorem adControl_round_trip :
    adControlEnum "blockAds" = some 1 ∧ adControlFromInt 1 = some "blockAds" ∧
      ∀ (s : String) (n : Int), adControlEnum s = some n → adControlFromInt n = some s := by
  refine ⟨rfl, rfl, ?_⟩
  intro s n h
  simp only [adControlEnum] at h
  split_ifs at h with h1 h2 h3
  · cases h; subst h1; rfl
  · cases h; subst h2; rfl
  · cases h; subst h3; rfl

/-- Closed witness for `adControl_round_trip`. -/
theorem adControl_round_trip_witness :
    adControlFromInt 0 = some "showBraveAds" :=
  adControl_round_trip.2.2 "showBraveAds" 0 rfl

/-! ### C4: object-id assignment is idempotent -/

/-- C4: on an item that already carries an objectId, `setObjectId` returns
the identical item and generates nothing; likewise the
`setting.objectId || newObjectId(...)` path of record building reuses the
existing id and issues no persistence. -/
theorem objectId_assignment_idempotent :
    (∀ (fresh oid : List Nat) (rest : JsObj),
      setObjectId fresh (some (.map (some oid) rest)) =
        (some (.map (some oid) rest), false)) ∧
    ∀ (hostPattern : String) (setting : JsObj) (fresh : List Nat) (v : JsVal),
      objGet setting "objectId" = some v → jsTruthy v = true →
      (createSiteSettingsData hostPattern setting fresh).1.objectId = v ∧
      (createSiteSettingsData hostPattern setting fresh).2 = false := by
  constructor
  · intro fresh oid rest
    rfl
  · intro hostPattern setting fresh v hget htr
    simp [createSiteSettingsData, hget, htr]

/-- Closed witness for `objectId_assignment_idempotent`. -/
theorem objectId_assignment_idempotent_witness :
    (createSiteSettingsData "h" [("objectId", JsVal.arr [.num 1])] []).1.objectId =
      JsVal.arr [.num 1] ∧
    (createSiteSettingsData "h" [("objectId", JsVal.arr [.num 1])] []).2 = false :=
  objectId_assignment_idempotent.2 "h" _ [] (JsVal.arr [.num 1]) rfl rfl

/-! ### C1: createSiteData branch behaviour -/

/-- The `name` of a successfully built record. -/
def builtName : SiteDataResult → Option String
  | .built item _ => some item.name
  | _ => none

/-- The `value.isFolder` of a built bookmark record. -/
def builtIsFolder : SiteDataResult → Option Bool
  | .built ⟨_, _, .bookmark _ f _ _⟩ _ => some f
  | _ => none

/-- The `value` site fields of a built historySite record. -/
def builtHistoryFields : SiteDataResult → Option SiteFields
  | .built ⟨_, _, .historySite fl⟩ _ => some fl
  | _ => none

/-- A site tagged both `bookmark` and `bookmark-folder`: its tag list
includes `bookmark`, yet `createSiteData` builds it with `isFolder=true`. -/
def c1site : Site :=
  { tags := some ["bookmark", "bookmark-folder"], objectId := some [0] }

/-- C1 counterexample: `c1site`'s tag list includes `bookmark`, but the
built bookmark record has `isFolder = true`, not `false` as the claim
states for every site whose tag list includes `bookmark`. -/
theorem createSiteData_bothTags_isFolder_true :
    (c1site.tags.getD []).contains "bookmark" = true ∧
      builtName (createSiteData c1site none []) = some "bookmark" ∧
      builtIsFolder (createSiteData c1site none []) = some true ∧
      ¬ builtIsFolder (createSiteData c1site none []) = some false := by
  refine ⟨rfl, rfl, rfl, fun h => ?_⟩
  rw [show builtIsFolder (createSiteData c1site none []) = some true from rfl] at h
  simp at h

/-- C1 (amended): for every site carrying an objectId, a tag list that
includes `bookmark` but not `bookmark-folder` yields a `bookmark` record
with `isFolder=false`; a tag list including `bookmark-folder` yields a
`bookmark` record with `isFolder=true`; and no tags (absent or empty)
yields a `historySite` record carrying the copied site fields. -/
theorem createSiteData_branches_with_objectId :
    ∀ (s : Site) (idx : Option Nat) (fresh oid : List Nat), s.objectId = some oid →
      ((∃ tags, s.tags = some tags ∧ tags.contains "bookmark" = true ∧
          tags.contains "bookmark-folder" = false) →
        builtName (createSiteData s idx fresh) = some "bookmark" ∧
        builtIsFolder (createSiteData s idx fresh) = some false) ∧
      ((∃ tags, s.tags = some tags ∧ tags.contains "bookmark-folder" = true) →
        builtName (createSiteData s idx fresh) = some "bookmark" ∧
        builtIsFolder (createSiteData s idx fresh) = some true) ∧
      ((s.tags = none ∨ s.tags = some []) →
        builtName (createSiteData s idx fresh) = some "historySite" ∧
        builtHistoryFields (createSiteData s idx fresh) = some (siteFieldsOf s)) := by
  intro s idx fresh oid hoid
  refine ⟨?_, ?_, ?_⟩
  · rintro ⟨tags, htags, hb, hf⟩
    have hb' : "bookmark" ∈ tags := by simpa using hb
    have hf' : "bookmark-folder" ∉ tags := by simpa using hf
    simp [createSiteData, isSyncableBookmark, htags, hb', hf', hoid, builtName, builtIsFolder]
  · rintro ⟨tags, htags, hf⟩
    have hf' : "bookmark-folder" ∈ tags := by simpa using hf
    simp [createSiteData, isSyncableBookmark, htags, hf', hoid, builtName, builtIsFolder]
  · rintro (h | h) <;>
      simp [createSiteData, isSyncableBookmark, tagsEmpty, h, hoid, builtName,
        builtHistoryFields]

/-- Closed witness for `createSiteData_branches_with_objectId`. -/
theorem createSiteData_branches_with_objectId_witness :
    builtName (createSiteData { tags := some ["bookmark"], objectId := some [5] } none []) =
      some "bookmark" ∧
    builtIsFolder (createSiteData { tags := some ["bookmark"], objectId := some [5] } none []) =
      some false :=
  (createSiteData_branches_with_objectId _ none [] [5] rfl).1 ⟨["bookmark"], rfl, rfl, rfl⟩

/-! ### C3: transport-safe serialization -/

lemma deepArrayify_append (a b : JsObj) :
    deepArrayify (a ++ b) = deepArrayify a ++ deepArrayify b := by
  induction a with
  | nil => rfl
  | cons p rest ih =>
    cases p
    simp [deepArrayify, ih]

mutual

theorem arrayifyField_idem : ∀ (v : JsVal), arrayifyField (arrayifyField v) = arrayifyField v
  | .arr _ => rfl
  | .uint8 _ => rfl
  | .obj fs => by simp [arrayifyField, deepArrayify_idem fs]
  | .undefined => rfl
  | .bool _ => rfl
  | .num _ => rfl
  | .str _ => rfl

theorem deepArrayify_idem :
    ∀ (o : List (String × JsVal)), deepArrayify (deepArrayify o) = deepArrayify o
  | [] => rfl
  | (_, v) :: rest => by simp [deepArrayify, arrayifyField_idem v, deepArrayify_idem rest]

end

/-- C3: a `Uint8Array` field of 16 bytes is serialized to a plain number
array holding the same 16 values in the same order (the surrounding
fields being serialized in place), and `ipcSafeObject` is idempotent. -/
theorem ipcSafeObject_uint8_and_idempotent :
    (∀ (pre post : JsObj) (k : String) (bs : List Nat), bs.length = 16 →
      ipcSafeObject (pre ++ (k, JsVal.uint8 bs) :: post) =
        deepArrayify pre ++
          (k, JsVal.arr (bs.map (fun b => JsVal.num (Int.ofNat b)))) :: deepArrayify post) ∧
    ∀ (o : JsObj), ipcSafeObject (ipcSafeObject o) = ipcSafeObject o := by
  constructor
  · intro pre post k bs _
    simp [ipcSafeObject, deepArrayify_append, deepArrayify, arrayifyField]
  · intro o
    exact deepArrayify_idem o

/-- Closed witness for `ipcSafeObject_uint8_and_idempotent`. -/
theorem ipcSafeObject_uint8_and_idempotent_witness :
    ipcSafeObject ([] ++ ("objectId",
        JsVal.uint8 [0, 1, 2, 3, 4, 5, 6, 7, 8, 9, 10, 11, 12, 13, 14, 15]) :: []) =
      deepArrayify [] ++ ("objectId",
        JsVal.arr ([0, 1, 2, 3, 4, 5, 6, 7, 8, 9, 10, 11, 12, 13, 14, 15].map
          (fun b => JsVal.num (Int.ofNat b)))) :: deepArrayify [] :=
  ipcSafeObject_uint8_and_idempotent.1 [] [] "objectId" _ (by decide)

/-! ### C7: poll scheduler and watermark -/

lemma pollTrace_startAt (init t0 interval k : Nat) :
    (pollTrace init t0 interval k).startAt = now (t0 + k * interval) := by
  cases k with
  | zero => simp [pollTrace, pollOnce]
  | succ n => simp [pollTrace, pollOnce]

/-- C7: the poll routine fires once immediately at ready time `t0` and at
`t0 + k * interval` for each later `k`; after the `k`-th firing the stored
watermark equals the wall-clock time (in seconds) of that firing; each
firing appends the fetch (carrying the previous watermark) immediately
followed by the external persistence of the new watermark — the watermark
is advanced at send time, before any response exists in the trace. -/
theorem pollTrace_watermark_advance :
    ∀ (init t0 interval k : Nat),
      (pollTrace init t0 interval k).startAt = now (t0 + k * interval) ∧
      (pollTrace init t0 interval 0).events =
        [.fetch categoryNames init, .save (now t0)] ∧
      (pollTrace init t0 interval (k + 1)).events =
        (pollTrace init t0 interval k).events ++
          [.fetch categoryNames (now (t0 + k * interval)),
           .save (now (t0 + (k + 1) * interval))] := by
  intro init t0 interval k
  refine ⟨pollTrace_startAt init t0 interval k, ?_, ?_⟩
  · simp [pollTrace, pollOnce]
  · simp [pollTrace, pollOnce, pollTrace_startAt]

/-! ### C10: the site-setting value carries exactly the schema fields -/

lemma foldl_applySettingField_keys :
    ∀ (fields : List (String × JsVal)) (value : JsObj), value.map Prod.fst = schemaKeys →
      (fields.foldl applySettingField value).map Prod.fst = schemaKeys := by
  intro fields
  induction fields with
  | nil => intro value h; simpa using h
  | cons f rest ih =>
    intro value h
    rw [List.foldl_cons]
    apply ih
    unfold applySettingField
    split_ifs with h1 h2 h3
    · rw [map_fst_objSet _ _ _ ?_, h]
      rw [objHas_iff_mem_keys, h]
      decide
    · rw [map_fst_objSet _ _ _ ?_, h]
      rw [objHas_iff_mem_keys, h]
      decide
    · rw [map_fst_objSet _ _ _ h3, h]
    · exact h

lemma foldl_applySettingField_get_notin :
    ∀ (fields : List (String × JsVal)) (value : JsObj) (k : String),
      (∀ f ∈ fields, f.1 ≠ k) →
      objGet (fields.foldl applySettingField value) k = objGet value k := by
  intro fields
  induction fields with
  | nil => intro value k _; rfl
  | cons f rest ih =>
    intro value k hk
    have hf : f.1 ≠ k := hk f (List.mem_cons_self f rest)
    rw [List.foldl_cons, ih _ k (fun g hg => hk g (List.mem_cons_of_mem f hg))]
    unfold applySettingField
    split_ifs with h1 h2 h3
    · exact objGet_objSet_ne _ _ _ _ (fun he => hf (h1.trans he.symm))
    · exact objGet_objSet_ne _ _ _ _ (fun he => hf (h2.trans he.symm))
    · exact objGet_objSet_ne _ _ _ _ (Ne.symm hf)
    · rfl

lemma objGet_eq_none_of_not_mem_keys (o : JsObj) (k : String)
    (h : k ∉ o.map Prod.fst) : objGet o k = none := by
  rw [objGet_eq_none_iff]
  intro p hp hpk
  exact h (hpk ▸ List.mem_map_of_mem Prod.fst hp)

/-- C10: for every hostPattern and input settings object, the record's
`value` carries exactly the fixed schema keys (in schema order); the
hostPattern field holds the given hostPattern when the input does not
override it; every schema field absent from the input keeps its schema
default; and no key outside the schema is ever copied from the input. -/
theorem createSiteSettingsData_schema_fields :
    ∀ (hostPattern : String) (setting : JsObj) (fresh : List Nat),
      (createSiteSettingsData hostPattern setting fresh).1.value =
        .siteSetting (settingValue hostPattern setting) ∧
      (settingValue hostPattern setting).map Prod.fst = schemaKeys ∧
      (objGet setting "hostPattern" = none →
        objGet (settingValue hostPattern setting) "hostPattern" =
          some (.str hostPattern)) ∧
      (∀ k, k ≠ "hostPattern" → objGet setting k = none →
        objGet (settingValue hostPattern setting) k = objGet siteSettingDefaults k) ∧
      (∀ k, k ∉ schemaKeys → objGet (settingValue hostPattern setting) k = none) := by
  intro hostPattern setting fresh
  have hkeys : (settingValue hostPattern setting).map Prod.fst = schemaKeys := by
    apply foldl_applySettingField_keys
    rw [map_fst_objSet _ _ _ (by decide)]
    decide
  refine ⟨?_, hkeys, ?_, ?_, ?_⟩
  · by_cases h : jsTruthy ((objGet setting "objectId").getD JsVal.undefined) = true <;>
      simp [createSiteSettingsData, h]
  · intro habs
    unfold settingValue
    rw [foldl_applySettingField_get_notin _ _ _ ((objGet_eq_none_iff _ _).mp habs)]
    exact objGet_objSet_self _ _ _
  · intro k hk habs
    unfold settingValue
    rw [foldl_applySettingField_get_notin _ _ _ ((objGet_eq_none_iff _ _).mp habs)]
    exact objGet_objSet_ne _ _ _ _ hk
  · intro k hk
    exact objGet_eq_none_of_not_mem_keys _ _ (hkeys ▸ hk)

/-- Closed witness for `createSiteSettingsData_schema_fields`. -/
theorem createSiteSettingsData_schema_fields_witness :
    objGet (settingValue "h" [("noScript", JsVal.bool true), ("junk", JsVal.num 5)])
      "zoomLevel" = objGet siteSettingDefaults "zoomLevel" ∧
    objGet (settingValue "h" [("noScript", JsVal.bool true), ("junk", JsVal.num 5)])
      "hostPattern" = some (.str "h") ∧
    objGet (settingValue "h" [("noScript", JsVal.bool true), ("junk", JsVal.num 5)])
      "junk" = none :=
  ⟨(createSiteSettingsData_schema_fields "h"
      [("noScript", JsVal.bool true), ("junk", JsVal.num 5)] []).2.2.2.1
      "zoomLevel" (by decide) rfl,
   (createSiteSettingsData_schema_fields "h"
      [("noScript", JsVal.bool true), ("junk", JsVal.num 5)] []).2.2.1 rfl,
   (createSiteSettingsData_schema_fields "h"
      [("noScript", JsVal.bool true), ("junk", JsVal.num 5)] []).2.2.2.2
      "junk" (by decide)⟩

/-! ### C8: first-run device record and bookmark backfill -/

/-- The channel send of the first-run device CREATE record. -/
def deviceEffect (dId freshDev : List Nat) : SendEffect :=
  .sendRecords (CATEGORY_MAP "device")
    [some ⟨.create, dId, idToJs freshDev, "device", .device "browser-laptop"⟩]

/-- The channel send emitted by the backfill loop for one eligible site. -/
def bookmarkCreateEffect (dId : List Nat) (s : Site) (fresh : List Nat) : SendEffect :=
  .sendRecords (CATEGORY_MAP "bookmark")
    [some ⟨.create, dId, idToJs fresh, "bookmark",
      .bookmark (siteFieldsOf s) ((s.tags.getD []).contains "bookmark-folder")
        (s.folderId.getD 0) (s.parentFolderId.getD 0)⟩]

/-- The effect list the backfill loop produces when the deviceId is
established: one bookmark CREATE send per present site lacking an
objectId and syncable as a bookmark. -/
def backfillSends (dId : List Nat) (freshSite : Nat → List Nat) :
    Nat → List (Option Site) → List SendEffect
  | _, [] => []
  | i, osite :: rest =>
    (match osite with
     | some s =>
       if s.objectId.isNone && isSyncableBookmark s then
         [bookmarkCreateEffect dId s (freshSite i)]
       else []
     | none => []) ++ backfillSends dId freshSite (i + 1) rest

/-- The effect list of the site-settings UPDATE backfill. -/
def settingsSendList (dId : List Nat) (freshSetting : Nat → List Nat)
    (siteSettings : List (String × JsObj)) : List SendEffect :=
  match sendSyncRecords (some dId) .update
      (settingsRecords freshSetting 0
        (siteSettings.filter (fun kv => isSyncableSiteSetting kv.2))) with
  | .ok eff => eff.toList
  | .error _ => []

/-- Whether a channel operation carries a record named `device`. -/
def isDeviceSend : SendEffect → Bool
  | .sendRecords _ recs => recs.any (fun r =>
      match r with
      | some sr => sr.name = "device"
      | none => false)
  | _ => false

lemma createSiteSettingsData_name (hp : String) (setting : JsObj) (fresh : List Nat) :
    (createSiteSettingsData hp setting fresh).1.name = "siteSetting" := by
  by_cases h : jsTruthy ((objGet setting "objectId").getD JsVal.undefined) = true <;>
    simp [createSiteSettingsData, h]

lemma backfillSites_eq (dId : List Nat) (freshSite : Nat → List Nat) :
    ∀ (sites : List (Option Site)) (i : Nat),
      backfillSites (some dId) freshSite i sites =
        .ok (backfillSends dId freshSite i sites) := by
  intro sites
  induction sites with
  | nil => intro i; rfl
  | cons osite rest ih =>
    intro i
    cases osite with
    | none => simp [backfillSites, backfillSends, ih (i + 1)]
    | some s =>
      by_cases hc : (s.objectId.isNone && isSyncableBookmark s) = true
      · rw [Bool.and_eq_true] at hc
        obtain ⟨ho, hb⟩ := hc
        have ho' : s.objectId = none := Option.isNone_iff_eq_none.mp ho
        have hcreate : createSiteData s (some i) (freshSite i) =
            .built ⟨"bookmark", idToJs (freshSite i),
              .bookmark (siteFieldsOf s) ((s.tags.getD []).contains "bookmark-folder")
                (s.folderId.getD 0) (s.parentFolderId.getD 0)⟩ true := by
          simp [createSiteData, hb, ho']
        simp only [backfillSites, backfillSends, ho', hb, hcreate, ih (i + 1),
          Option.isNone_none, Bool.and_self, if_true, siteDataToExcept]
        rfl
      · simp [backfillSites, backfillSends, hc, ih (i + 1)]

lemma sendSyncRecords_settings_ok (dId : List Nat) (freshSetting : Nat → List Nat)
    (l : List (String × JsObj)) :
    ∃ eff, sendSyncRecords (some dId) .update (settingsRecords freshSetting 0 l) =
      .ok eff := by
  cases l with
  | nil => exact ⟨none, rfl⟩
  | cons kv rest => exact ⟨_, rfl⟩

lemma onSyncReady_first_run_eq (dId freshDev : List Nat) (sites : List (Option Site))
    (siteSettings : List (String × JsObj)) (freshSite freshSetting : Nat → List Nat) :
    onSyncReady true (some dId) sites siteSettings freshDev freshSite freshSetting =
      .ok (deviceEffect dId freshDev :: (backfillSends dId freshSite 0 sites ++
        settingsSendList dId freshSetting siteSettings)) := by
  obtain ⟨eff, heff⟩ := sendSyncRecords_settings_ok dId freshSetting
    (siteSettings.filter (fun kv => isSyncableSiteSetting kv.2))
  have hset : settingsSendList dId freshSetting siteSettings = eff.toList := by
    unfold settingsSendList
    rw [heff]
  simp only [onSyncReady, backfillSites_eq, heff, hset]
  rfl

lemma backfillSends_no_device (dId : List Nat) (freshSite : Nat → List Nat) :
    ∀ (sites : List (Option Site)) (i : Nat),
      ∀ e ∈ backfillSends dId freshSite i sites, isDeviceSend e = false := by
  intro sites
  induction sites with
  | nil => intro i e he; simp [backfillSends] at he
  | cons osite rest ih =>
    intro i e he
    cases osite with
    | none =>
      simp only [backfillSends, List.nil_append] at he
      exact ih (i + 1) e he
    | some s =>
      by_cases hc : (s.objectId.isNone && isSyncableBookmark s) = true
      · simp only [backfillSends, hc, if_true, List.singleton_append,
          List.mem_cons] at he
        rcases he with h | h
        · subst h
          simp [bookmarkCreateEffect, isDeviceSend]
        · exact ih (i + 1) e h
      · simp only [backfillSends, if_neg hc, List.nil_append] at he
        exact ih (i + 1) e he

lemma settingsRecords_mem_name (freshSetting : Nat → List Nat) :
    ∀ (l : List (String × JsObj)) (i : Nat) (r : Option RecordItem),
      r ∈ settingsRecords freshSetting i l →
      ∃ item, r = some item ∧ item.name = "siteSetting" := by
  intro l
  induction l with
  | nil => intro i r hr; simp [settingsRecords] at hr
  | cons kv rest ih =>
    intro i r hr
    obtain ⟨hp, st⟩ := kv
    rw [settingsRecords] at hr
    rcases List.mem_cons.mp hr with h | h
    · exact ⟨_, h, createSiteSettingsData_name _ _ _⟩
    · exact ih (i + 1) r h

lemma settingsSendList_no_device (dId : List Nat) (freshSetting : Nat → List Nat)
    (siteSettings : List (String × JsObj)) :
    (settingsSendList dId freshSetting siteSettings).countP isDeviceSend = 0 := by
  unfold settingsSendList
  cases hl : siteSettings.filter (fun kv => isSyncableSiteSetting kv.2) with
  | nil => rfl
  | cons kv rest =>
    obtain ⟨hp, st⟩ := kv
    have hnames := settingsRecords_mem_name freshSetting ((hp, st) :: rest) 0
    rw [settingsRecords, sendSyncRecords]
    simp only [Option.toList_some, List.countP_cons, List.countP_nil, Nat.zero_add]
    have hfalse : isDeviceSend (SendEffect.sendRecords
        (CATEGORY_MAP (createSiteSettingsData hp st (freshSetting 0)).1.name)
        (List.map (sentItem WriteAction.update dId)
          (some (createSiteSettingsData hp st (freshSetting 0)).1 ::
            settingsRecords freshSetting (0 + 1) rest))) = false := by
      rw [isDeviceSend, List.any_eq_false]
      intro x hx
      obtain ⟨r, hr, hmap⟩ := List.mem_map.mp hx
      obtain ⟨item, hr', hname⟩ := hnames r (by rw [settingsRecords]; exact hr)
      subst hr'
      rw [← hmap]
      simp [sentItem, hname]
    rw [hfalse]
    simp

lemma backfillSends_mem (dId : List Nat) (freshSite : Nat → List Nat) :
    ∀ (sites : List (Option Site)) (i0 j : Nat) (s : Site),
      sites[j]? = some (some s) → s.objectId = none → isSyncableBookmark s = true →
      bookmarkCreateEffect dId s (freshSite (i0 + j)) ∈
        backfillSends dId freshSite i0 sites := by
  intro sites
  induction sites with
  | nil => intro i0 j s h; simp at h
  | cons osite rest ih =>
    intro i0 j s hget ho hb
    cases j with
    | zero =>
      have hos : osite = some s := by simpa using hget
      subst hos
      simp [backfillSends, ho, hb]
    | succ j' =>
      have hget' : rest[j']? = some (some s) := by simpa using hget
      have hmem := ih (i0 + 1) j' s hget' ho hb
      have harith : i0 + 1 + j' = i0 + (j' + 1) := by omega
      rw [harith] at hmem
      simp only [backfillSends]
      exact List.mem_append_right _ hmem

/-- C8 (amended): on first engine start with no existing identity and an
established deviceId, the dispatcher emits exactly one device CREATE
record, carrying the human-readable name `browser-laptop`; and for every
site in the collection that lacks an objectId and is syncable as a
bookmark (its tags include `bookmark` or `bookmark-folder`), the backfill
assigns a freshly generated objectId (the builder's persistence flag is
set) and emits a CREATE record for it.  Sites that are not
bookmark-syncable — history sites included — receive no backfill record. -/
theorem onSyncReady_first_run_sends :
    ∀ (dId freshDev : List Nat) (sites : List (Option Site))
      (siteSettings : List (String × JsObj)) (freshSite freshSetting : Nat → List Nat),
      ∃ effs,
        onSyncReady true (some dId) sites siteSettings freshDev freshSite freshSetting =
          .ok effs ∧
        effs.countP isDeviceSend = 1 ∧
        deviceEffect dId freshDev ∈ effs ∧
        ∀ i s, sites[i]? = some (some s) → s.objectId = none →
          isSyncableBookmark s = true →
          bookmarkCreateEffect dId s (freshSite i) ∈ effs ∧
          createSiteData s (some i) (freshSite i) =
            .built ⟨"bookmark", idToJs (freshSite i),
              .bookmark (siteFieldsOf s) ((s.tags.getD []).contains "bookmark-folder")
                (s.folderId.getD 0) (s.parentFolderId.getD 0)⟩ true := by
  intro dId freshDev sites siteSettings freshSite freshSetting
  refine ⟨_, onSyncReady_first_run_eq dId freshDev sites siteSettings freshSite freshSetting,
    ?_, ?_, ?_⟩
  · have h1 : (backfillSends dId freshSite 0 sites).countP isDeviceSend = 0 := by
      rw [List.countP_eq_zero]
      intro e he
      simp [backfillSends_no_device dId freshSite sites 0 e he]
    have h2 := settingsSendList_no_device dId freshSetting siteSettings
    simp [List.countP_cons, List.countP_append, h1, h2, isDeviceSend, deviceEffect]
  · exact List.mem_cons_self _ _
  · intro i s hget ho hb
    constructor
    · have hmem := backfillSends_mem dId freshSite sites 0 i s hget ho hb
      rw [Nat.zero_add] at hmem
      exact List.mem_cons_of_mem _ (List.mem_append_left _ hmem)
    · simp [createSiteData, hb, ho]

/-- A bookmark site lacking an objectId, eligible for first-run backfill. -/
def c8bkSite : Site := { location := some "https://b", tags := some ["bookmark"] }

/-- Closed witness for `onSyncReady_first_run_sends`. -/
theorem onSyncReady_first_run_sends_witness :
    createSiteData c8bkSite (some 0) [9] =
      .built ⟨"bookmark", idToJs [9],
        .bookmark (siteFieldsOf c8bkSite) ((c8bkSite.tags.getD []).contains "bookmark-folder")
          (c8bkSite.folderId.getD 0) (c8bkSite.parentFolderId.getD 0)⟩ true := by
  obtain ⟨effs, -, -, -, h4⟩ :=
    onSyncReady_first_run_sends [1] [7] [some c8bkSite] [] (fun _ => [9]) (fun _ => [3])
  exact (h4 0 c8bkSite rfl rfl rfl).2

/-- A history site (no tags) lacking an objectId. -/
def c8histSite : Site := { location := some "https://h" }

/-- C8 counterexample: on first run, a history object lacking an objectId
is NOT backfilled — the only record emitted is the device record, so the
claim's "every bookmark or history object that lacks an objectId" fails
for history objects. -/
theorem onSyncReady_history_site_not_backfilled :
    c8histSite.objectId = none ∧ tagsEmpty c8histSite = true ∧
      onSyncReady true (some [1]) [some c8histSite] [] [7] (fun _ => [9]) (fun _ => [3]) =
        .ok [deviceEffect [1] [7]] :=
  ⟨rfl, rfl, rfl⟩
